import Mathlib

/-!
Shallow embedding of `src/ts/circle.directive.ts` (class `CircleDirective`),
the Angular binding proxy for a Leaflet circle primitive.

Numbers are modelled as `Rat`; feature properties (the generic payload `T`)
are modelled as association lists of strings.  Event-emitter outputs are
modelled as a list of `Emit` values produced by each operation, in emission
order.  The underlying Leaflet 1.0.x primitive (class `Circle`, via
`CircleMarker` and `Path`) is modelled by the fields of `CircleState`:
`latlng` is `_latlng`, `mRadius` is `_mRadius`, `options` is the merged
option bag, and the rendering container probed by `getElement()` is modelled
by `hasElement` (the probe succeeds), `displayNone` (the inline display
style is the string none) and `hasParent` (the container has a parent
element).
-/

namespace LeafletNg2

/-- Leaflet `LatLng`: the canonical internal position representation. -/
structure LatLng where
  lat : Rat
  lng : Rat
deriving DecidableEq

/-- The three accepted position shapes of `setLatLng`:
`LatLngTuple | LatLngLiteral | LatLng`. -/
inductive LatLngInput where
  | tuple (fst snd : Rat)
  | literal (lat lng : Rat)
  | latLng (v : LatLng)
deriving DecidableEq

/-- Leaflet `toLatLng` normalization: a tuple is `[lat, lng]`, a literal
carries named fields, a native value is returned unchanged. -/
def toLatLng : LatLngInput → LatLng
  | .tuple a b => { lat := a, lng := b }
  | .literal la ln => { lat := la, lng := ln }
  | .latLng v => v

/-- The partial style bag accepted by `setStyle` (TS type `PathOptions`,
every field optional).  A field equal to `none` models a key that is not an
own property of the input object.  The `display` field models an input
object carrying a `display` own property, which `PathOptions` does not
declare but which a JavaScript caller can pass. -/
structure PathOptions where
  stroke : Option Bool := none
  color : Option String := none
  weight : Option Rat := none
  opacity : Option Rat := none
  lineCap : Option String := none
  lineJoin : Option String := none
  dashArray : Option String := none
  dashOffset : Option String := none
  fill : Option Bool := none
  fillColor : Option String := none
  fillOpacity : Option Rat := none
  fillRule : Option String := none
  className : Option String := none
  display : Option Bool := none
deriving DecidableEq

/-- The merged option bag held by the primitive (`this.options`, TS type
`CircleMarkerOptions`).  The recognized path-style keys are modelled with
total fields; `display`, an unrecognized extra key that Leaflet
`setOptions` would copy all the same, stays optional. -/
structure CircleMarkerOptions where
  stroke : Bool
  color : String
  weight : Rat
  opacity : Rat
  lineCap : String
  lineJoin : String
  dashArray : String
  dashOffset : String
  fill : Bool
  fillColor : String
  fillOpacity : Rat
  fillRule : String
  className : String
  display : Option Bool
  interactive : Bool
deriving DecidableEq

/-- Leaflet `setOptions` as called by `Path.setStyle`: every own property of
the update bag overwrites the corresponding entry of `this.options`. -/
def setOptions (o : CircleMarkerOptions) (s : PathOptions) : CircleMarkerOptions :=
  { o with
    stroke := s.stroke.getD o.stroke
    color := s.color.getD o.color
    weight := s.weight.getD o.weight
    opacity := s.opacity.getD o.opacity
    lineCap := s.lineCap.getD o.lineCap
    lineJoin := s.lineJoin.getD o.lineJoin
    dashArray := s.dashArray.getD o.dashArray
    dashOffset := s.dashOffset.getD o.dashOffset
    fill := s.fill.getD o.fill
    fillColor := s.fillColor.getD o.fillColor
    fillOpacity := s.fillOpacity.getD o.fillOpacity
    fillRule := s.fillRule.getD o.fillRule
    className := s.className.getD o.className
    display := match s.display with
      | some v => some v
      | none => o.display }

/-- Feature properties payload (the generic `T` of the directive). -/
abbrev Props := List (String × String)

/-- A GeoJSON feature as handled by the `geoJSON` accessors: properties, a
geometry type tag, and point coordinates stored longitude first. -/
structure Feature where
  props : Props
  geomType : String
  coords : List Rat
deriving DecidableEq

/-- A native Leaflet event object, reduced to its event name and an opaque
payload. -/
structure NativeEvent where
  name : String
  payload : Nat
deriving DecidableEq

/-- One framework-level output emission of the directive.  Constructors
mirror the `EventEmitter` fields of `CircleDirective` one for one. -/
inductive Emit where
  | displayChange (v : Bool)
  | strokeChange (v : Bool)
  | colorChange (v : String)
  | weightChange (v : Rat)
  | opacityChange (v : Rat)
  | lineCapChange (v : String)
  | lineJoinChange (v : String)
  | dashArrayChange (v : String)
  | dashOffsetChange (v : String)
  | fillChange (v : Bool)
  | fillColorChange (v : String)
  | fillOpacityChange (v : Rat)
  | fillRuleChange (v : String)
  | classNameChange (v : String)
  | styleChange (v : PathOptions)
  | positionChange (v : LatLng)
  | latChange (v : Rat)
  | lngChange (v : Rat)
  | radiusChange (v : Rat)
  | geoJSONChange (v : Feature)
  | addEvent (e : NativeEvent)
  | removeEvent (e : NativeEvent)
  | popupopenEvent (e : NativeEvent)
  | popupcloseEvent (e : NativeEvent)
  | tooltipopenEvent (e : NativeEvent)
  | tooltipcloseEvent (e : NativeEvent)
  | clickEvent (e : NativeEvent)
  | dbclickEvent (e : NativeEvent)
  | mousedownEvent (e : NativeEvent)
  | mouseoverEvent (e : NativeEvent)
  | mouseoutEvent (e : NativeEvent)
  | contextmenuEvent (e : NativeEvent)
deriving DecidableEq

/-- State of one `CircleDirective` instance together with its underlying
Leaflet primitive. -/
structure CircleState where
  latlng : LatLng
  mRadius : Rat
  options : CircleMarkerOptions
  featureProps : Props
  initialized : Bool
  hasElement : Bool
  displayNone : Bool
  hasParent : Bool
deriving DecidableEq

/-- Leaflet `toGeoJSON` for a circle marker, backing the `geoJSON` getter:
a Point feature whose coordinates are `[lng, lat]` and whose properties are
the feature properties of the primitive. -/
def toGeoJSON (s : CircleState) : Feature :=
  { props := s.featureProps, geomType := "Point", coords := [s.latlng.lng, s.latlng.lat] }

/-- `CircleDirective.setLatLng` (lines 282 to 292): forwards to the Leaflet
primitive (which stores the normalized value in `_latlng`), then, only once
`initialized` holds, emits positionChange, latChange, lngChange and
geoJSONChange with the new values.  The native move event fired by the
primitive has no subscription in the directive and produces no emission. -/
def setLatLng (val : LatLngInput) (s : CircleState) : CircleState × List Emit :=
  let s1 := { s with latlng := toLatLng val }
  if s1.initialized then
    (s1, [Emit.positionChange s1.latlng, Emit.latChange s1.latlng.lat,
          Emit.lngChange s1.latlng.lng, Emit.geoJSONChange (toGeoJSON s1)])
  else
    (s1, [])

/-- The `lat` setter (lines 300 to 302): `setLatLng([val, this.lng])`. -/
def latSet (val : Rat) (s : CircleState) : CircleState × List Emit :=
  setLatLng (LatLngInput.tuple val s.latlng.lng) s

/-- The `lng` setter (lines 306 to 308): `setLatLng([this.lat, val])`. -/
def lngSet (val : Rat) (s : CircleState) : CircleState × List Emit :=
  setLatLng (LatLngInput.tuple s.latlng.lat val) s

/-- Emission guard used by `setStyle`: emits the value exactly when the key
is an own property of the input bag. -/
def optEmit {α : Type} (o : Option α) (f : α → Emit) : List Emit :=
  match o with
  | some v => [f v]
  | none => []

/-- The thirteen specific-key emissions of `CircleDirective.setStyle`
(lines 355 to 393), in source order.  `setStyle` has no check for a
`display` key. -/
def specificStyleEmits (style : PathOptions) : List Emit :=
  optEmit style.stroke Emit.strokeChange ++
  optEmit style.color Emit.colorChange ++
  optEmit style.weight Emit.weightChange ++
  optEmit style.opacity Emit.opacityChange ++
  optEmit style.lineCap Emit.lineCapChange ++
  optEmit style.lineJoin Emit.lineJoinChange ++
  optEmit style.dashArray Emit.dashArrayChange ++
  optEmit style.dashOffset Emit.dashOffsetChange ++
  optEmit style.fill Emit.fillChange ++
  optEmit style.fillColor Emit.fillColorChange ++
  optEmit style.fillOpacity Emit.fillOpacityChange ++
  optEmit style.fillRule Emit.fillRuleChange ++
  optEmit style.className Emit.classNameChange

/-- `CircleDirective.setStyle` (lines 353 to 397): forwards to the Leaflet
primitive (merging the bag into `this.options`), emits one specific-key
notification per own property among the thirteen checked keys, then emits
`styleChange` with the very bag object that was passed in. -/
def setStyle (style : PathOptions) (s : CircleState) : CircleState × List Emit :=
  ({ s with options := setOptions s.options style },
   specificStyleEmits style ++ [Emit.styleChange style])

/-- All-keys-present bag built from a merged option set; renders the merged
full style in the payload type of `styleChange`, for comparison with what
the code actually emits. -/
def fullToBag (o : CircleMarkerOptions) : PathOptions :=
  { stroke := some o.stroke
    color := some o.color
    weight := some o.weight
    opacity := some o.opacity
    lineCap := some o.lineCap
    lineJoin := some o.lineJoin
    dashArray := some o.dashArray
    dashOffset := some o.dashOffset
    fill := some o.fill
    fillColor := some o.fillColor
    fillOpacity := some o.fillOpacity
    fillRule := some o.fillRule
    className := some o.className
    display := o.display }

/-- Recognizer for the generic style notification. -/
def isStyleChange : Emit → Bool
  | .styleChange _ => true
  | _ => false

/-- Recognizer for the display notification. -/
def isDisplayChange : Emit → Bool
  | .displayChange _ => true
  | _ => false

/-- The `display` getter (lines 572 to 581): probing `getElement()` may
raise (modelled by `hasElement = false`), in which case the getter returns
false; otherwise it reports that the inline display style is not the string
none and the container has a parent element. -/
def displayGet (s : CircleState) : Bool :=
  if s.hasElement then (!s.displayNone) && s.hasParent else false

/-- The `display` setter (lines 557 to 571): reads the current rendered
visibility; returns when it already equals the new value; returns when
probing `getElement()` raises; otherwise emits displayChange and writes the
inline display style (empty string for visible, none for hidden). -/
def displaySet (val : Bool) (s : CircleState) : CircleState × List Emit :=
  let isDisplayed := displayGet s
  if isDisplayed = val then
    (s, [])
  else if s.hasElement = false then
    (s, [])
  else
    ({ s with displayNone := !val }, [Emit.displayChange val])

/-- Modelled from the spec: the helper `lng2lat` lives in
`src/ts/lng2lat.ts`, which is not under `src/`.  The spec says the
geometry-interchange import converts geometry coordinates into the position
shape; interchange point coordinates are stored longitude first, so the
conversion swaps the first two entries, producing the `[lat, lng]` tuple
shape. -/
def lng2lat (coords : List Rat) : LatLngInput :=
  LatLngInput.tuple (coords.getD 1 0) (coords.getD 0 0)

/-- The `geoJSON` setter (lines 335 to 345): first replaces
`this.feature.properties` with the properties of the input feature, then
raises on any geometry type other than Point (the source checks the negated
equality first; the branches are equivalent), else delegates the converted
coordinates to `setLatLng`.  The returned state is the state at the moment
the setter finishes or the raise occurs. -/
def geoJSONSet (val : Feature) (s : CircleState) : CircleState × Except String (List Emit) :=
  let s1 := { s with featureProps := val.props }
  if val.geomType = "Point" then
    ((setLatLng (lng2lat val.coords) s1).1,
     Except.ok (setLatLng (lng2lat val.coords) s1).2)
  else
    (s1, Except.error ("Unsupported geometry type: " ++ val.geomType))

/-- The `properties` getter (lines 606 to 608): `this.feature.properties`. -/
def propertiesGet (s : CircleState) : Props :=
  s.featureProps

/-- One call of a Leaflet layer lifecycle hook. -/
inductive HookCall where
  | onRemove
  | onAdd
deriving DecidableEq

/-- Leaflet `Path.onRemove` (external library): removes the path element
from the renderer container.  It does not fire the native remove event;
that event is fired by `Map.removeLayer`, which is not called here. -/
def onRemoveHook (s : CircleState) : CircleState × List Emit :=
  ({ s with hasParent := false }, [])

/-- Leaflet `Path.onAdd` (external library): initializes the path element
and inserts it into the renderer container.  It does not fire the native
add event; that event is fired by the `Layer` addition flow of the map,
which is not called here. -/
def onAddHook (s : CircleState) : CircleState × List Emit :=
  ({ s with hasElement := true, hasParent := true }, [])

/-- The `interactive` setter (lines 588 to 593): writes
`this.options.interactive`, then calls `this.onRemove(map)` and
`this.onAdd(map)` directly, in that order.  The returned trace records the
two hook calls in call order. -/
def interactiveSet (val : Bool) (s : CircleState) :
    CircleState × List Emit × List HookCall :=
  let s1 := { s with options := { s.options with interactive := val } }
  let r1 := onRemoveHook s1
  let r2 := onAddHook r1.1
  (r2.1, r1.2 ++ r2.2, [HookCall.onRemove, HookCall.onAdd])

/-- The `interactive` getter (lines 594 to 596). -/
def interactiveGet (s : CircleState) : Bool :=
  s.options.interactive

/-- The native event subscriptions registered by the constructor (lines 210
to 255), as pairs of event name and handler, in registration order.  The
two displayChange handlers come first, then the re-emission handlers. -/
def constructorSubscriptions : List (String × (NativeEvent → List Emit)) :=
  [("remove", fun _ => [Emit.displayChange false]),
   ("add", fun _ => [Emit.displayChange true]),
   ("add", fun e => [Emit.addEvent e]),
   ("remove", fun e => [Emit.removeEvent e]),
   ("popupopen", fun e => [Emit.popupopenEvent e]),
   ("popupclose", fun e => [Emit.popupcloseEvent e]),
   ("tooltipopen", fun e => [Emit.tooltipopenEvent e]),
   ("tooltipclose", fun e => [Emit.tooltipcloseEvent e]),
   ("click", fun e => [Emit.clickEvent e]),
   ("dbclick", fun e => [Emit.dbclickEvent e]),
   ("mousedown", fun e => [Emit.mousedownEvent e]),
   ("mouseover", fun e => [Emit.mouseoverEvent e]),
   ("mouseout", fun e => [Emit.mouseoutEvent e]),
   ("contextmenu", fun e => [Emit.contextmenuEvent e])]

/-- Dispatch of one native Leaflet event through the registered
subscriptions: every handler registered under the event name runs, in
registration order, independent of any directive state. -/
def fireNative (e : NativeEvent) : List Emit :=
  (constructorSubscriptions.map (fun p => if p.1 = e.name then p.2 e else [])).flatten

/-- A concrete merged option bag used by concrete evaluations. -/
def sampleOptions : CircleMarkerOptions :=
  { stroke := true
    color := "red"
    weight := 3
    opacity := 1
    lineCap := "round"
    lineJoin := "round"
    dashArray := ""
    dashOffset := ""
    fill := true
    fillColor := "blue"
    fillOpacity := 1
    fillRule := "evenodd"
    className := ""
    display := none
    interactive := true }

/-- A concrete directive state: initialized, attached, container visible
and parented. -/
def sampleState : CircleState :=
  { latlng := { lat := 1, lng := 2 }
    mRadius := 10
    options := sampleOptions
    featureProps := []
    initialized := true
    hasElement := true
    displayNone := false
    hasParent := true }

/-- A concrete directive state whose path element exists but is no longer
attached to any parent element, as after removal of the layer from the
map. -/
def detachedParentState : CircleState :=
  { latlng := { lat := 1, lng := 2 }
    mRadius := 10
    options := sampleOptions
    featureProps := []
    initialized := true
    hasElement := true
    displayNone := false
    hasParent := false }

/-- A concrete non-Point feature. -/
def sampleLineFeature : Feature :=
  { props := [("kind", "line")], geomType := "LineString", coords := [3, 4] }

/-- A concrete single-key style bag carrying only an opacity entry. -/
def opacityBag : PathOptions :=
  { opacity := some 7 }

/-- Membership in a guarded emission: the emission list of one key holds
exactly the images of the present value. -/
theorem mem_optEmit {α : Type} {o : Option α} {f : α → Emit} {x : Emit} :
    x ∈ optEmit o f ↔ ∃ v, o = some v ∧ x = f v := by
  cases o <;> simp [optEmit]

/-- The generic style notification never occurs among the thirteen
specific-key emissions. -/
theorem styleChange_not_mem_specific (style : PathOptions) (p : PathOptions) :
    Emit.styleChange p ∉ specificStyleEmits style := by
  simp [specificStyleEmits, mem_optEmit, List.mem_append]

/-- C1: as stated the claim is false for the display key: the input bag has
display as an own property, yet setStyle emits no display-changed
notification.  The only emission of this call is the generic styleChange. -/
theorem circle_setStyle_display_key_counterexample :
    ({ display := some true } : PathOptions).display.isSome = true ∧
    ¬ (∃ v, Emit.displayChange v ∈ (setStyle { display := some true } sampleState).2) := by
  constructor
  · rfl
  · simp [setStyle, specificStyleEmits, optEmit, List.mem_append]

/-- C1 (amended): for every partial style bag and every state, each of the
thirteen keys checked by setStyle (stroke, color, weight, opacity, lineCap,
lineJoin, dashArray, dashOffset, fill, fillColor, fillOpacity, fillRule,
className) produces its specific change notification iff that key is an own
property of the bag, regardless of the prior value; setStyle never emits
the display-changed notification. -/
theorem circle_setStyle_specific_key_emissions (style : PathOptions) (s : CircleState) :
    ((∃ v, Emit.strokeChange v ∈ (setStyle style s).2) ↔ style.stroke.isSome = true) ∧
    ((∃ v, Emit.colorChange v ∈ (setStyle style s).2) ↔ style.color.isSome = true) ∧
    ((∃ v, Emit.weightChange v ∈ (setStyle style s).2) ↔ style.weight.isSome = true) ∧
    ((∃ v, Emit.opacityChange v ∈ (setStyle style s).2) ↔ style.opacity.isSome = true) ∧
    ((∃ v, Emit.lineCapChange v ∈ (setStyle style s).2) ↔ style.lineCap.isSome = true) ∧
    ((∃ v, Emit.lineJoinChange v ∈ (setStyle style s).2) ↔ style.lineJoin.isSome = true) ∧
    ((∃ v, Emit.dashArrayChange v ∈ (setStyle style s).2) ↔ style.dashArray.isSome = true) ∧
    ((∃ v, Emit.dashOffsetChange v ∈ (setStyle style s).2) ↔ style.dashOffset.isSome = true) ∧
    ((∃ v, Emit.fillChange v ∈ (setStyle style s).2) ↔ style.fill.isSome = true) ∧
    ((∃ v, Emit.fillColorChange v ∈ (setStyle style s).2) ↔ style.fillColor.isSome = true) ∧
    ((∃ v, Emit.fillOpacityChange v ∈ (setStyle style s).2) ↔ style.fillOpacity.isSome = true) ∧
    ((∃ v, Emit.fillRuleChange v ∈ (setStyle style s).2) ↔ style.fillRule.isSome = true) ∧
    ((∃ v, Emit.classNameChange v ∈ (setStyle style s).2) ↔ style.className.isSome = true) ∧
    (∀ v, Emit.displayChange v ∉ (setStyle style s).2) := by
  refine ⟨?_, ?_, ?_, ?_, ?_, ?_, ?_, ?_, ?_, ?_, ?_, ?_, ?_, ?_⟩ <;>
    simp [setStyle, specificStyleEmits, mem_optEmit, List.mem_append,
      Option.isSome_iff_exists]

/-- C2: as stated the claim is false about the payload: the generic
styleChange notification carries the partial update bag, not the full
merged style.  At a state whose merged options hold color red, an update of
the opacity key alone emits styleChange with the one-key bag, and the
all-keys merged rendering of the options is not among the emissions. -/
theorem circle_setStyle_payload_counterexample :
    Emit.styleChange opacityBag ∈ (setStyle opacityBag sampleState).2 ∧
    Emit.styleChange (fullToBag (setOptions sampleState.options opacityBag)) ∉
      (setStyle opacityBag sampleState).2 := by
  decide

/-- C2 (amended): for every input bag, setStyle emits the generic
styleChange notification exactly once, after all specific-key
notifications, and its payload is the partial update bag that was passed
in, not the merged style. -/
theorem circle_setStyle_generic_notification (style : PathOptions) (s : CircleState) :
    (setStyle style s).2 = specificStyleEmits style ++ [Emit.styleChange style] ∧
    (∀ p, Emit.styleChange p ∉ specificStyleEmits style) ∧
    (setStyle style s).2.countP isStyleChange = 1 := by
  refine ⟨rfl, fun p => styleChange_not_mem_specific style p, ?_⟩
  have h0 : (specificStyleEmits style).countP isStyleChange = 0 := by
    rw [List.countP_eq_zero]
    intro a ha
    cases a <;> simp [isStyleChange]
    exact styleChange_not_mem_specific style _ ha
  simp [setStyle, List.countP_append, h0, isStyleChange]

/-- C3: setLatLng stores the normalized value in the primitive
unconditionally, and emits positionChange, latChange, lngChange and
geoJSONChange with the new values exactly when initialization has
completed; before that it emits nothing. -/
theorem circle_setLatLng_forward_and_emissions (val : LatLngInput) (s : CircleState) :
    (setLatLng val s).1 = { s with latlng := toLatLng val } ∧
    (setLatLng val s).2 =
      (if s.initialized then
        [Emit.positionChange (toLatLng val), Emit.latChange (toLatLng val).lat,
         Emit.lngChange (toLatLng val).lng,
         Emit.geoJSONChange (toGeoJSON { s with latlng := toLatLng val })]
       else []) := by
  cases h : s.initialized <;> simp [setLatLng, h]

/-- C4: the geoJSON setter raises the unsupported-geometry error exactly
when the geometry kind differs from Point, regardless of coordinate
content; on a Point feature it does not raise and delegates the converted
coordinates to setLatLng on the state whose feature properties were
replaced. -/
theorem circle_geoJSON_setter_geometry_kind :
    (∀ (f : Feature) (s : CircleState),
      (∃ msg, (geoJSONSet f s).2 = Except.error msg) ↔ f.geomType ≠ "Point") ∧
    (∀ (props : Props) (coords : List Rat) (s : CircleState),
      geoJSONSet { props := props, geomType := "Point", coords := coords } s =
        ((setLatLng (lng2lat coords) { s with featureProps := props }).1,
         Except.ok (setLatLng (lng2lat coords) { s with featureProps := props }).2)) := by
  constructor
  · intro f s
    by_cases h : f.geomType = "Point" <;> simp [geoJSONSet, h]
  · intro props coords s
    simp [geoJSONSet]

/-- C9: the geoJSON setter is not atomic on failure: for a feature of any
non-Point geometry kind, the state at the moment the error is raised
already holds the input features properties, observable through the
properties getter. -/
theorem circle_geoJSON_setter_not_atomic (f : Feature) (s : CircleState)
    (h : f.geomType ≠ "Point") :
    propertiesGet (geoJSONSet f s).1 = f.props ∧
    (geoJSONSet f s).2 = Except.error ("Unsupported geometry type: " ++ f.geomType) := by
  simp [geoJSONSet, propertiesGet, h]

/-- C9 witness: concrete evaluation on a LineString feature. -/
theorem circle_geoJSON_setter_not_atomic_witness :
    sampleLineFeature.geomType ≠ "Point" ∧
    (propertiesGet (geoJSONSet sampleLineFeature sampleState).1 = sampleLineFeature.props ∧
     (geoJSONSet sampleLineFeature sampleState).2 =
       Except.error ("Unsupported geometry type: " ++ sampleLineFeature.geomType)) :=
  ⟨by decide, circle_geoJSON_setter_not_atomic sampleLineFeature sampleState (by decide)⟩

/-- C6: round-trip: after setLatLng, the geometry-interchange export holds
coordinates equal to those of the set position, longitude first. -/
theorem circle_position_geoJSON_roundtrip (val : LatLngInput) (s : CircleState) :
    (toGeoJSON (setLatLng val s).1).coords = [(toLatLng val).lng, (toLatLng val).lat] := by
  cases h : s.initialized <;> simp [setLatLng, toGeoJSON, h]

/-- C10: the lat setter rebuilds the position from the new latitude and the
current longitude, leaving the longitude unchanged, and the lng setter does
the symmetric thing. -/
theorem circle_lat_lng_setters_preserve_other (v : Rat) (s : CircleState) :
    (latSet v s).1.latlng = { lat := v, lng := s.latlng.lng } ∧
    (latSet v s).1.latlng.lng = s.latlng.lng ∧
    (lngSet v s).1.latlng = { lat := s.latlng.lat, lng := v } ∧
    (lngSet v s).1.latlng.lat = s.latlng.lat := by
  cases h : s.initialized <;> simp [latSet, lngSet, setLatLng, toLatLng, h]

/-- C5: as stated the claim is false: at a state whose path element exists
but has no parent element (as after removal of the layer from the map),
the getter keeps reporting false, so two consecutive assignments of true
each emit displayChange, two emissions in total. -/
theorem circle_display_double_set_counterexample :
    ((displaySet true detachedParentState).2 ++
      (displaySet true (displaySet true detachedParentState).1).2).countP
      isDisplayChange = 2 := by
  decide

/-- C5 (amended): provided that the rendering container, whenever it
exists, is attached to a parent element, two consecutive assignments of
the same value emit displayChange at most once: the second assignment
observes an unchanged rendered visibility and returns without emitting or
changing state; and when probing the container raises, the setter declines
to toggle and the getter returns false. -/
theorem circle_display_set_at_most_once (v : Bool) (s : CircleState)
    (h : s.hasElement = true → s.hasParent = true) :
    (displaySet v (displaySet v s).1).1 = (displaySet v s).1 ∧
    (displaySet v (displaySet v s).1).2 = [] ∧
    ((displaySet v s).2 ++ (displaySet v (displaySet v s).1).2).countP
      isDisplayChange ≤ 1 ∧
    (s.hasElement = false → displaySet v s = (s, []) ∧ displayGet s = false) := by
  rcases s with ⟨ll, r, o, fp, ini, he, dn, hp⟩
  cases he <;> cases dn <;> cases hp <;> cases v <;>
    simp_all [displaySet, displayGet, isDisplayChange]

/-- C5 witness: concrete evaluation at the attached, parented sample
state. -/
theorem circle_display_set_at_most_once_witness :
    (sampleState.hasElement = true → sampleState.hasParent = true) ∧
    ((displaySet true (displaySet true sampleState).1).1 = (displaySet true sampleState).1 ∧
     (displaySet true (displaySet true sampleState).1).2 = [] ∧
     ((displaySet true sampleState).2 ++
       (displaySet true (displaySet true sampleState).1).2).countP isDisplayChange ≤ 1 ∧
     (sampleState.hasElement = false →
       displaySet true sampleState = (sampleState, []) ∧ displayGet sampleState = false)) :=
  ⟨by decide, circle_display_set_at_most_once true sampleState (by decide)⟩

/-- C7: dispatching a native add event runs exactly the two handlers
registered for add, in registration order: displayChange true first, then
the re-emission of the event itself; displayChange occurs exactly once.
Symmetrically, a native remove event yields displayChange false exactly
once plus the re-emitted event.  The dispatch takes no directive state, so
this path is independent of the display setter. -/
theorem circle_native_add_remove_display (pl : Nat) :
    fireNative { name := "add", payload := pl } =
      [Emit.displayChange true, Emit.addEvent { name := "add", payload := pl }] ∧
    (fireNative { name := "add", payload := pl }).countP isDisplayChange = 1 ∧
    fireNative { name := "remove", payload := pl } =
      [Emit.displayChange false, Emit.removeEvent { name := "remove", payload := pl }] ∧
    (fireNative { name := "remove", payload := pl }).countP isDisplayChange = 1 := by
  refine ⟨rfl, rfl, rfl, rfl⟩

/-- C8: as stated the claim is false about event handlers: toggling
interactive calls the lifecycle hooks directly, and those do not fire the
native add and remove events, so no displayChange emission occurs during
the assignment. -/
theorem circle_interactive_counterexample :
    (interactiveSet true sampleState).2.1 = [] ∧
    ¬ (Emit.displayChange false ∈ (interactiveSet true sampleState).2.1 ∧
       Emit.displayChange true ∈ (interactiveSet true sampleState).2.1) := by
  decide

/-- C8 (amended): assigning v to interactive writes the interactivity
option, then calls the detach hook and the attach hook of the primitive,
in that order; these hook calls do not fire the native detach and attach
events, so no emission occurs during the assignment; the getter then
returns v. -/
theorem circle_interactive_set_behavior (v : Bool) (s : CircleState) :
    (interactiveSet v s).1.options.interactive = v ∧
    interactiveGet (interactiveSet v s).1 = v ∧
    (interactiveSet v s).2.2 = [HookCall.onRemove, HookCall.onAdd] ∧
    (interactiveSet v s).2.1 = [] := by
  simp [interactiveSet, interactiveGet, onRemoveHook, onAddHook]

end LeafletNg2
